import Mathlib

/-!
# Verification of the paypal-express NVP client

A shallow embedding, in Lean 4, of `paypal.go` from the `paypal-express`
repository, together with proofs about its behaviour.

Modelling conventions:
* Go `net/url.Values` (`map[string][]string`) is modelled as an association
  list with at most one entry per key (`UrlValues`); Go maps are unordered and
  all observations (`get`, `getAll`, `encode`) are order-insensitive.
* Go `float64` amounts are modelled as the exact rational value held by the
  float (`Rat`); `fmt.Sprintf("%.2f", x)` is modelled as correct decimal
  rounding of that exact value with ties to even, which is what Go's
  `strconv` formatting performs on the binary value.
* Go `int16` quantities are modelled as `Int`.
* The relevant parts of the standard library collaborators
  (`net/url.ParseQuery`, `url.QueryEscape`, `url.Values.Encode`,
  `strings.ToLower` on ASCII data) are embedded alongside the repository
  code, since `PerformRequest` and `CheckoutUrl` observably depend on them.
  Percent-unescaping decodes each byte to the Unicode code point of the same
  value (Go instead reassembles raw bytes; the two agree on ASCII data, which
  is all the protocol and the proofs below use).
* The HTTP transport itself (`http.Client.PostForm`, body reading) is the
  external collaborator and is not modelled; `PerformRequest` is split into
  the values it submits (`PerformRequestValues`, `PerformRequestSubmission`)
  and the decoding of a received body (`PerformRequestDecode`).
-/

namespace PaypalNVP

/-! ## `net/url.Values` -/

/-- Model of Go `net/url.Values` (`map[string][]string`): an association list
from key to the slice of values stored under it. -/
abbrev UrlValues : Type := List (String × List String)

/-- Go map indexing `v[key]`: the slice under `key`, nil (`[]`) when absent. -/
def UrlValues.getAll (vs : UrlValues) (k : String) : List String :=
  match vs with
  | [] => []
  | p :: rest => if p.1 == k then p.2 else UrlValues.getAll rest k

/-- Go `Values.Get`: first value under the key, `""` when absent or empty. -/
def UrlValues.get (vs : UrlValues) (k : String) : String :=
  match UrlValues.getAll vs k with
  | [] => ""
  | v :: _ => v

/-- Go `Values.Add`: `v[key] = append(v[key], value)`. -/
def UrlValues.add (vs : UrlValues) (k v : String) : UrlValues :=
  match vs with
  | [] => [(k, [v])]
  | p :: rest => if p.1 == k then (p.1, p.2 ++ [v]) :: rest else p :: UrlValues.add rest k v

/-- Go `Values.Set`: `v[key] = []string{value}`. -/
def UrlValues.set (vs : UrlValues) (k v : String) : UrlValues :=
  match vs with
  | [] => [(k, [v])]
  | p :: rest => if p.1 == k then (k, [v]) :: rest else p :: UrlValues.set rest k v

/-- Whether the map has an entry under key `k`. -/
def UrlValues.containsKey (vs : UrlValues) (k : String) : Bool :=
  match vs with
  | [] => false
  | p :: rest => p.1 == k || UrlValues.containsKey rest k

/-! ## `net/url` escaping, unescaping and query parsing -/

/-- Uppercase hexadecimal digit, as written by Go `url.QueryEscape`. -/
def hexUpperDigit (n : Nat) : Char :=
  if n < 10 then Char.ofNat (48 + n) else Char.ofNat (55 + n)

/-- Characters Go `url.QueryEscape` leaves unescaped in a query component:
ASCII alphanumerics and `-` `_` `.` `~`. -/
def queryUnescapedChar (c : Char) : Bool :=
  c.isAlphanum || c == '-' || c == '_' || c == '.' || c == '~'

/-- Go `url.QueryEscape` of one character: space becomes `+`, unreserved
characters stay, every other UTF-8 byte becomes `%XX`. -/
def queryEscapeChar (c : Char) : List Char :=
  if c == ' ' then ['+']
  else if queryUnescapedChar c then [c]
  else (String.utf8EncodeChar c).foldr
    (fun b acc => '%' :: hexUpperDigit (b.toNat / 16) :: hexUpperDigit (b.toNat % 16) :: acc) []

/-- Go `url.QueryEscape`. -/
def queryEscape (s : String) : String :=
  String.mk (s.data.foldr (fun c acc => queryEscapeChar c ++ acc) [])

/-- ASCII hexadecimal digit test, Go `ishex`. -/
def isHexChar (c : Char) : Bool :=
  ('0' ≤ c && c ≤ '9') || ('a' ≤ c && c ≤ 'f') || ('A' ≤ c && c ≤ 'F')

/-- Value of an ASCII hexadecimal digit, Go `unhex`. -/
def hexVal (c : Char) : Nat :=
  if '0' ≤ c && c ≤ '9' then c.toNat - 48
  else if 'a' ≤ c && c ≤ 'f' then c.toNat - 87
  else c.toNat - 55

/-- Core of Go `url.QueryUnescape`: `%XX` decodes a byte, `+` decodes to a
space; a `%` not followed by two hex digits is an escape error carrying the
offending text (Go `EscapeError`). -/
def queryUnescapeCore : List Char → Except String (List Char)
  | [] => Except.ok []
  | '%' :: a :: b :: rest =>
    if isHexChar a && isHexChar b then
      (queryUnescapeCore rest).map (fun l => Char.ofNat (16 * hexVal a + hexVal b) :: l)
    else Except.error (String.mk ['%', a, b])
  | ['%', a] => Except.error (String.mk ['%', a])
  | ['%'] => Except.error "%"
  | '+' :: rest => (queryUnescapeCore rest).map (fun l => ' ' :: l)
  | c :: rest => (queryUnescapeCore rest).map (fun l => c :: l)

/-- ASCII lowercase of one character. -/
def toLowerChar (c : Char) : Char :=
  if 'A' ≤ c && c ≤ 'Z' then Char.ofNat (c.toNat + 32) else c

/-- Go `strings.ToLower` on ASCII data (the Unicode mappings Go additionally
performs never produce the ASCII comparands used in `paypal.go`). -/
def goToLower (s : String) : String := String.mk (s.data.map toLowerChar)

/-- The error values of Go `net/url.parseQuery`. -/
inductive ParseError where
  | invalidSemicolon : ParseError
  | escapeError : String → ParseError
  deriving DecidableEq

/-- Go `strings.Cut(seg, "=")`: the part before the first `=` and the part
after it (the whole segment and `""` when there is no `=`). -/
def cutEq : List Char → List Char × List Char
  | [] => ([], [])
  | '=' :: rest => ([], rest)
  | c :: rest => (c :: (cutEq rest).1, (cutEq rest).2)

/-- Go `if err == nil { err = e }`. -/
def keepFirst (err : Option ParseError) (e : ParseError) : Option ParseError :=
  match err with
  | some e0 => some e0
  | none => some e

/-- The loop of Go `net/url.parseQuery` over the `&`-separated segments: a
segment containing `;` replaces the error and is skipped, an empty segment is
skipped, otherwise the segment is cut at the first `=`, both halves are
query-unescaped (an unescape failure keeps the first error and skips the
segment) and the pair is added to the map. -/
def parseQueryCore : List (List Char) → UrlValues → Option ParseError → UrlValues × Option ParseError
  | [], m, err => (m, err)
  | seg :: rest, m, err =>
    if seg.contains ';' then parseQueryCore rest m (some ParseError.invalidSemicolon)
    else if seg.isEmpty then parseQueryCore rest m err
    else
      match queryUnescapeCore (cutEq seg).1 with
      | Except.error e => parseQueryCore rest m (keepFirst err (ParseError.escapeError e))
      | Except.ok k =>
        match queryUnescapeCore (cutEq seg).2 with
        | Except.error e => parseQueryCore rest m (keepFirst err (ParseError.escapeError e))
        | Except.ok v => parseQueryCore rest (UrlValues.add m (String.mk k) (String.mk v)) err

/-- Go `net/url.ParseQuery`: the (possibly partially filled) map together with
the first error encountered, `none` when the body parsed cleanly. -/
def parseQuery (s : String) : UrlValues × Option ParseError :=
  parseQueryCore (s.data.splitOn '&') [] none

/-- Byte-lexicographic order on keys (Go `sort.Strings`; on UTF-8 data byte
order and code-point order agree). -/
def keyLeChars : List Char → List Char → Bool
  | [], _ => true
  | _ :: _, [] => false
  | a :: as, b :: bs =>
    if a.toNat < b.toNat then true
    else if b.toNat < a.toNat then false
    else keyLeChars as bs

/-- Key order used by `UrlValues.encode`. -/
def keyLe (a b : String) : Bool := keyLeChars a.data b.data

/-- Insertion step of the key sort. -/
def insertByKey (p : String × List String) : UrlValues → UrlValues
  | [] => [p]
  | q :: rest => if keyLe p.1 q.1 then p :: q :: rest else q :: insertByKey p rest

/-- Entries sorted by key, modelling the key sort in Go `Values.Encode`. -/
def sortByKey : UrlValues → UrlValues
  | [] => []
  | p :: rest => insertByKey p (sortByKey rest)

/-- `&`-join, as built by the buffer writes in Go `Values.Encode`. -/
def joinAmp : List String → String
  | [] => ""
  | [s] => s
  | s :: rest => s ++ "&" ++ joinAmp rest

/-- Go `url.Values.Encode`: keys sorted, one `key=value` pair per stored
value, both sides query-escaped, joined with `&`. -/
def UrlValues.encode (vs : UrlValues) : String :=
  joinAmp ((sortByKey vs).foldr
    (fun p acc => p.2.map (fun v => queryEscape p.1 ++ "=" ++ queryEscape v) ++ acc) [])

/-! ## The repository's data model (`paypal.go`) -/

/-- Endpoint and version constants of `paypal.go`. -/
def NVP_SANDBOX_URL : String := "https://api-3t.sandbox.paypal.com/nvp"

/-- Production API endpoint constant. -/
def NVP_PRODUCTION_URL : String := "https://api-3t.paypal.com/nvp"

/-- Sandbox checkout redirect host constant. -/
def CHECKOUT_SANDBOX_URL : String := "https://www.sandbox.paypal.com/cgi-bin/webscr"

/-- Production checkout redirect host constant. -/
def CHECKOUT_PRODUCTION_URL : String := "https://www.paypal.com/cgi-bin/webscr"

/-- Protocol version constant. -/
def NVP_VERSION : String := "84"

/-- Go `PayPalClient` (the `*http.Client` collaborator is not modelled). -/
structure PayPalClient where
  username : String
  password : String
  signature : String
  usesSandbox : Bool
  deriving DecidableEq

/-- Go `PayPalDigitalGood`; the `float64` amount is the exact rational value
of the float, the `int16` quantity an integer. -/
structure PayPalDigitalGood where
  Name : String
  Amount : Rat
  Quantity : Int
  deriving DecidableEq

/-- Go `PayPalResponse`. -/
structure PayPalResponse where
  Ack : String := ""
  CorrelationId : String := ""
  Timestamp : String := ""
  Version : String := ""
  Build : String := ""
  Values : UrlValues := []
  usedSandbox : Bool := false
  Invnum : String := ""
  TransactionId : String := ""
  deriving DecidableEq

/-- Go `PayPalError`. -/
structure PayPalError where
  Ack : String := ""
  ErrorCode : String := ""
  ShortMessage : String := ""
  LongMessage : String := ""
  SeverityCode : String := ""
  deriving DecidableEq

/-- Go `func (e *PayPalError) Error() string`. -/
def PayPalError.Error (e : PayPalError) : String :=
  if e.ErrorCode.length != 0 && e.ShortMessage.length != 0 then
    "PayPal Error " ++ e.ErrorCode ++ ": " ++ e.ShortMessage
  else if e.Ack.length != 0 then
    e.Ack
  else
    "PayPal is undergoing maintenance.\nPlease try again later."

/-- Go `func (r *PayPalResponse) CheckoutUrl() string`; the unchecked
`r.Values["TOKEN"][0]` index panics when the token list is missing or empty,
modelled as `none`. -/
def PayPalResponse.CheckoutUrl (r : PayPalResponse) : Option String :=
  let query := UrlValues.set [] "cmd" "_express-checkout"
  match UrlValues.getAll r.Values "TOKEN" with
  | [] => none
  | t :: _ =>
    let query := UrlValues.add query "token" t
    let checkoutUrl := if r.usedSandbox then CHECKOUT_SANDBOX_URL else CHECKOUT_PRODUCTION_URL
    some (checkoutUrl ++ "?" ++ UrlValues.encode query)

/-- Go `SumPayPalDigitalGoodAmounts`: the running `float64` accumulation,
modelled in exact arithmetic. -/
def SumPayPalDigitalGoodAmounts (goods : List PayPalDigitalGood) : Rat :=
  goods.foldl (fun sum dg => sum + dg.Amount * (dg.Quantity : Rat)) 0

/-! ## `fmt.Sprintf("%.2f", _)` -/

/-- Nearest integer with ties to even: the rounding Go's `strconv` formatting
applies, in decimal, to the exact value of the float. -/
def roundHalfEven (q : Rat) : Int :=
  let f := Int.floor q
  let r := q - (f : Rat)
  if r < 1/2 then f
  else if 1/2 < r then f + 1
  else if f % 2 = 0 then f else f + 1

/-- Go `fmt.Sprintf("%.2f", x)` on the exact value `q` of the float: sign,
integer part, and exactly two decimal digits. -/
def formatFloat2 (q : Rat) : String :=
  let n := roundHalfEven (q * 100)
  let sgn := if q < 0 then "-" else ""
  let m := n.natAbs
  sgn ++ Nat.repr (m / 100) ++ "." ++ Nat.repr (m / 10 % 10) ++ Nat.repr (m % 10)

/-! ## `PerformRequest` -/

/-- The four fields `PerformRequest` adds to the caller's values before
submitting them (lines 93-96 of `paypal.go`). -/
def PerformRequestValues (c : PayPalClient) (values : UrlValues) : UrlValues :=
  UrlValues.add
    (UrlValues.add
      (UrlValues.add
        (UrlValues.add values "USER" c.username)
        "PWD" c.password)
      "SIGNATURE" c.signature)
    "VERSION" NVP_VERSION

/-- Endpoint and form values actually submitted by `PerformRequest`; the POST
itself is the external HTTP collaborator. -/
def PerformRequestSubmission (c : PayPalClient) (values : UrlValues) : String × UrlValues :=
  (if c.usesSandbox then NVP_SANDBOX_URL else NVP_PRODUCTION_URL, PerformRequestValues c values)

/-- The `error` results `PerformRequest` can produce from a received body. -/
inductive GoError where
  | parse : ParseError → GoError
  | payPal : PayPalError → GoError
  deriving DecidableEq

/-- The body of `if err == nil { ... }` in `PerformRequest` (lines 117-136):
populate the structured response fields from the parsed values and classify
the remote error, if any. -/
def processParsed (usedSandbox : Bool) (responseValues : UrlValues) :
    PayPalResponse × Option PayPalError :=
  let response : PayPalResponse := {
    Ack := responseValues.get "ACK"
    CorrelationId := responseValues.get "CORRELATIONID"
    Timestamp := responseValues.get "TIMESTAMP"
    Version := responseValues.get "VERSION"
    Build := responseValues.get "2975009"
    Values := responseValues
    usedSandbox := usedSandbox
    Invnum := responseValues.get "PAYMENTREQUEST_0_INVNUM"
    TransactionId := responseValues.get "PAYMENTREQUEST_0_TRANSACTIONID" }
  let errorCode := responseValues.get "L_ERRORCODE0"
  if errorCode.length != 0 || goToLower response.Ack == "failure"
      || goToLower response.Ack == "failurewithwarning" then
    (response, some {
      Ack := response.Ack
      ErrorCode := errorCode
      ShortMessage := responseValues.get "L_SHORTMESSAGE0"
      LongMessage := responseValues.get "L_LONGMESSAGE0"
      SeverityCode := responseValues.get "L_SEVERITYCODE0" })
  else
    (response, none)

/-- `PerformRequest` from the received body onward (lines 114-139): parse the
body, build the response (left in its zero state but for the environment flag
when parsing failed), classify, and return the response alongside the error. -/
def PerformRequestDecode (usedSandbox : Bool) (body : String) :
    Option PayPalResponse × Option GoError :=
  let parsed := parseQuery body
  match parsed.2 with
  | some e => (some { usedSandbox := usedSandbox }, some (GoError.parse e))
  | none =>
    let processed := processParsed usedSandbox parsed.1
    (some processed.1, processed.2.map GoError.payPal)

/-! ## The operation façade -/

/-- The values built by `SetExpressCheckoutDigitalGoods` before the item loop
(lines 217-227 of `paypal.go`). -/
def setExpressCheckoutBaseValues (paymentAmount : Rat)
    (currencyCode returnURL cancelURL invnum : String) : UrlValues :=
  UrlValues.add (UrlValues.add (UrlValues.add (UrlValues.add (UrlValues.add
    (UrlValues.add (UrlValues.add (UrlValues.add (UrlValues.add
      (UrlValues.set [] "METHOD" "SetExpressCheckout")
      "PAYMENTREQUEST_0_AMT" (formatFloat2 paymentAmount))
      "PAYMENTREQUEST_0_PAYMENTACTION" "Sale")
      "PAYMENTREQUEST_0_CURRENCYCODE" currencyCode)
      "PAYMENTREQUEST_0_INVNUM" invnum)
      "RETURNURL" returnURL)
      "CANCELURL" cancelURL)
      "REQCONFIRMSHIPPING" "0")
      "NOSHIPPING" "1")
      "SOLUTIONTYPE" "Sole"

/-- One iteration of the item loop (lines 229-236): the four indexed fields
for item `i`, the index rendered by `fmt.Sprintf("%s%d", ...)`. -/
def addGood (i : Nat) (g : PayPalDigitalGood) (vs : UrlValues) : UrlValues :=
  UrlValues.add (UrlValues.add (UrlValues.add
    (UrlValues.add vs ("L_PAYMENTREQUEST_0_NAME" ++ Nat.repr i) g.Name)
    ("L_PAYMENTREQUEST_0_AMT" ++ Nat.repr i) (formatFloat2 g.Amount))
    ("L_PAYMENTREQUEST_0_QTY" ++ Nat.repr i) (Int.repr g.Quantity))
    ("L_PAYMENTREQUEST_0_ITEMCATEGORY" ++ Nat.repr i) "Digital"

/-- The item loop of `SetExpressCheckoutDigitalGoods`, item index starting
at `i`. -/
def addGoods : Nat → List PayPalDigitalGood → UrlValues → UrlValues
  | _, [], vs => vs
  | i, g :: gs, vs => addGoods (i + 1) gs (addGood i g vs)

/-- The full parameter set built by `SetExpressCheckoutDigitalGoods`
(lines 216-238); the trailing `PerformRequest` call is covered by
`PerformRequestSubmission`. -/
def SetExpressCheckoutDigitalGoodsValues (paymentAmount : Rat)
    (currencyCode returnURL cancelURL invnum : String)
    (goods : List PayPalDigitalGood) : UrlValues :=
  addGoods 0 goods
    (setExpressCheckoutBaseValues paymentAmount currencyCode returnURL cancelURL invnum)

/-- The parameter set built by `DoExpressCheckoutPayment` (lines 248-254). -/
def DoExpressCheckoutPaymentValues (token payerId paymentType currencyCode : String)
    (finalPaymentAmount : Rat) : UrlValues :=
  UrlValues.add (UrlValues.add (UrlValues.add (UrlValues.add (UrlValues.add
    (UrlValues.set [] "METHOD" "DoExpressCheckoutPayment")
    "TOKEN" token)
    "PAYERID" payerId)
    "PAYMENTREQUEST_0_PAYMENTACTION" paymentType)
    "PAYMENTREQUEST_0_CURRENCYCODE" currencyCode)
    "PAYMENTREQUEST_0_AMT" (formatFloat2 finalPaymentAmount)

/-- Go `DoExpressCheckoutPayment`: build the values and submit them. -/
def DoExpressCheckoutPayment (c : PayPalClient) (token payerId paymentType currencyCode : String)
    (finalPaymentAmount : Rat) : String × UrlValues :=
  PerformRequestSubmission c
    (DoExpressCheckoutPaymentValues token payerId paymentType currencyCode finalPaymentAmount)

/-- Go `DoExpressCheckoutSale` (lines 242-244): the convenience wrapper. -/
def DoExpressCheckoutSale (c : PayPalClient) (token payerId currencyCode : String)
    (finalPaymentAmount : Rat) : String × UrlValues :=
  DoExpressCheckoutPayment c token payerId "Sale" currencyCode finalPaymentAmount

/-- The parameter set built by `GetExpressCheckoutDetails` (lines 259-263). -/
def GetExpressCheckoutDetailsValues (token : String) : UrlValues :=
  UrlValues.set (UrlValues.add [] "TOKEN" token) "METHOD" "GetExpressCheckoutDetails"

/-! ## Basic facts about the `UrlValues` model -/

/-- A string has length zero exactly when it is empty. -/
theorem string_length_eq_zero {s : String} : s.length = 0 ↔ s = "" := by
  constructor
  · intro h
    apply String.ext
    exact List.length_eq_zero.mp h
  · intro h
    subst h
    rfl

/-- `Add` appends the value to the slice of its key and leaves every other
key untouched. -/
theorem getAll_add (vs : UrlValues) (k v k' : String) :
    UrlValues.getAll (UrlValues.add vs k v) k'
      = if k' = k then UrlValues.getAll vs k' ++ [v] else UrlValues.getAll vs k' := by
  induction vs with
  | nil =>
    by_cases h : k' = k
    · subst h
      simp [UrlValues.add, UrlValues.getAll]
    · simp [UrlValues.add, UrlValues.getAll, h, Ne.symm h]
  | cons p rest ih =>
    by_cases hp : p.1 = k
    · by_cases h : k' = k
      · subst h
        simp [UrlValues.add, UrlValues.getAll, hp]
      · have hk : ¬ k = k' := fun hh => h hh.symm
        simp [UrlValues.add, UrlValues.getAll, hp, h, hk]
    · by_cases hq : p.1 = k'
      · have hk : ¬ k' = k := fun hh => hp (hq.trans hh)
        simp [UrlValues.add, UrlValues.getAll, hp, hq, hk]
      · simp [UrlValues.add, UrlValues.getAll, hp, hq, ih]

/-- Adding under a fresh key appends a fresh entry at the end. -/
theorem add_eq_append (vs : UrlValues) (k v : String)
    (h : UrlValues.containsKey vs k = false) :
    UrlValues.add vs k v = vs ++ [(k, [v])] := by
  induction vs with
  | nil => rfl
  | cons p rest ih =>
    simp only [UrlValues.containsKey, Bool.or_eq_false_iff] at h
    simp [UrlValues.add, h.1, ih h.2]

/-- `containsKey` distributes over list append. -/
theorem containsKey_append (vs ws : UrlValues) (k : String) :
    UrlValues.containsKey (vs ++ ws) k
      = (UrlValues.containsKey vs k || UrlValues.containsKey ws k) := by
  induction vs with
  | nil => rfl
  | cons p rest ih => simp [UrlValues.containsKey, ih, Bool.or_assoc]

/-! ## Facts about the decode half of `PerformRequest` -/

/-- The response built by the parse-success branch, with every structured
field populated from the parsed values. -/
theorem processParsed_fst (sb : Bool) (rv : UrlValues) :
    (processParsed sb rv).1 = {
      Ack := UrlValues.get rv "ACK"
      CorrelationId := UrlValues.get rv "CORRELATIONID"
      Timestamp := UrlValues.get rv "TIMESTAMP"
      Version := UrlValues.get rv "VERSION"
      Build := UrlValues.get rv "2975009"
      Values := rv
      usedSandbox := sb
      Invnum := UrlValues.get rv "PAYMENTREQUEST_0_INVNUM"
      TransactionId := UrlValues.get rv "PAYMENTREQUEST_0_TRANSACTIONID" } := by
  simp only [processParsed]
  split <;> rfl

/-- The error flag produced by the parse-success branch is exactly the Go
condition of line 127. -/
theorem processParsed_snd_isSome (sb : Bool) (rv : UrlValues) :
    (processParsed sb rv).2.isSome
      = ((UrlValues.get rv "L_ERRORCODE0").length != 0
          || goToLower (UrlValues.get rv "ACK") == "failure"
          || goToLower (UrlValues.get rv "ACK") == "failurewithwarning") := by
  simp only [processParsed]
  split <;> rename_i hc <;> simp_all

/-- The error produced by the parse-success branch carries the raw `ACK`
value and the four item-0 detail fields. -/
theorem processParsed_snd_eq (sb : Bool) (rv : UrlValues) (pe : PayPalError)
    (h : (processParsed sb rv).2 = some pe) :
    pe = {
      Ack := UrlValues.get rv "ACK"
      ErrorCode := UrlValues.get rv "L_ERRORCODE0"
      ShortMessage := UrlValues.get rv "L_SHORTMESSAGE0"
      LongMessage := UrlValues.get rv "L_LONGMESSAGE0"
      SeverityCode := UrlValues.get rv "L_SEVERITYCODE0" } := by
  simp only [processParsed] at h
  split at h
  · exact (Option.some.injEq _ _ ▸ h).symm
  · exact absurd h (by simp)

/-- On a cleanly parsed body, the decode half returns the processed pair. -/
theorem performRequestDecode_ok (sb : Bool) (body : String) (rv : UrlValues)
    (h : parseQuery body = (rv, none)) :
    PerformRequestDecode sb body
      = (some (processParsed sb rv).1, (processParsed sb rv).2.map GoError.payPal) := by
  simp [PerformRequestDecode, h]

/-- The Go error condition of line 127, as a proposition. -/
theorem errorCondition_iff (rv : UrlValues) :
    ((UrlValues.get rv "L_ERRORCODE0").length != 0
        || goToLower (UrlValues.get rv "ACK") == "failure"
        || goToLower (UrlValues.get rv "ACK") == "failurewithwarning") = true
      ↔ (UrlValues.get rv "L_ERRORCODE0" ≠ ""
          ∨ goToLower (UrlValues.get rv "ACK") = "failure"
          ∨ goToLower (UrlValues.get rv "ACK") = "failurewithwarning") := by
  simp [string_length_eq_zero, or_assoc]

/-! ## C1: error classification in `PerformRequest` -/

/-- C1.  For every successfully parsed response body, `PerformRequest`
returns a non-nil error iff `L_ERRORCODE0` is non-empty or the lowercased
`ACK` is `failure`/`failurewithwarning`; the error carries the raw `ACK`
value and the four item-0 detail fields, and the fully populated response is
returned alongside the error. -/
theorem performRequest_error_classification (sb : Bool) (body : String) (rv : UrlValues)
    (h : parseQuery body = (rv, none)) :
    ((PerformRequestDecode sb body).2.isSome
        ↔ (UrlValues.get rv "L_ERRORCODE0" ≠ ""
            ∨ goToLower (UrlValues.get rv "ACK") = "failure"
            ∨ goToLower (UrlValues.get rv "ACK") = "failurewithwarning"))
    ∧ (∃ resp, (PerformRequestDecode sb body).1 = some resp
        ∧ resp.Ack = UrlValues.get rv "ACK"
        ∧ resp.CorrelationId = UrlValues.get rv "CORRELATIONID"
        ∧ resp.Timestamp = UrlValues.get rv "TIMESTAMP"
        ∧ resp.Version = UrlValues.get rv "VERSION"
        ∧ resp.Build = UrlValues.get rv "2975009"
        ∧ resp.Values = rv
        ∧ resp.usedSandbox = sb
        ∧ resp.Invnum = UrlValues.get rv "PAYMENTREQUEST_0_INVNUM"
        ∧ resp.TransactionId = UrlValues.get rv "PAYMENTREQUEST_0_TRANSACTIONID")
    ∧ (∀ ge, (PerformRequestDecode sb body).2 = some ge →
        ge = GoError.payPal {
          Ack := UrlValues.get rv "ACK"
          ErrorCode := UrlValues.get rv "L_ERRORCODE0"
          ShortMessage := UrlValues.get rv "L_SHORTMESSAGE0"
          LongMessage := UrlValues.get rv "L_LONGMESSAGE0"
          SeverityCode := UrlValues.get rv "L_SEVERITYCODE0" }) := by
  rw [performRequestDecode_ok sb body rv h]
  refine ⟨?_, ?_, ?_⟩
  · rw [← errorCondition_iff rv, ← processParsed_snd_isSome sb rv]
    cases (processParsed sb rv).2 <;> simp
  · exact ⟨(processParsed sb rv).1, rfl, by simp [processParsed_fst]⟩
  · intro ge hge
    rcases hpe : (processParsed sb rv).2 with _ | pe
    · rw [hpe] at hge
      exact absurd hge (by simp)
    · rw [hpe] at hge
      simp only [Option.map_some'] at hge
      rw [← Option.some_inj.mp hge, processParsed_snd_eq sb rv pe hpe]

/-- Witness for C1 at the concrete body `ACK=Failure&L_ERRORCODE0=10001`:
the classification fires and the error carries the raw values. -/
theorem performRequest_error_classification_witness :
    (PerformRequestDecode true "ACK=Failure&L_ERRORCODE0=10001").2
      = some (GoError.payPal {
          Ack := "Failure", ErrorCode := "10001",
          ShortMessage := "", LongMessage := "", SeverityCode := "" }) := by
  have hmain := performRequest_error_classification true "ACK=Failure&L_ERRORCODE0=10001"
    [("ACK", ["Failure"]), ("L_ERRORCODE0", ["10001"])] (by decide)
  have hsome : ((PerformRequestDecode true "ACK=Failure&L_ERRORCODE0=10001").2).isSome := by
    exact hmain.1.mpr (Or.inl (by decide))
  rcases hge : (PerformRequestDecode true "ACK=Failure&L_ERRORCODE0=10001").2 with _ | ge
  · rw [hge] at hsome
    exact absurd hsome (by simp)
  · rw [hmain.2.2 ge hge]
    decide

/-! ## C2: rendering of `PayPalError` -/

/-- C2.  The rendered message is `PayPal Error code: short` when both code
and short message are non-empty, else the `Ack` value when non-empty, else
the fixed maintenance-outage message; code `10001` with short message `Oops`
renders as `PayPal Error 10001: Oops`. -/
theorem payPalError_message_rendering :
    (∀ e : PayPalError,
      (e.ErrorCode ≠ "" → e.ShortMessage ≠ "" →
        PayPalError.Error e = "PayPal Error " ++ e.ErrorCode ++ ": " ++ e.ShortMessage)
      ∧ ((e.ErrorCode = "" ∨ e.ShortMessage = "") → e.Ack ≠ "" →
        PayPalError.Error e = e.Ack)
      ∧ ((e.ErrorCode = "" ∨ e.ShortMessage = "") → e.Ack = "" →
        PayPalError.Error e = "PayPal is undergoing maintenance.\nPlease try again later."))
    ∧ PayPalError.Error { ErrorCode := "10001", ShortMessage := "Oops" }
        = "PayPal Error 10001: Oops" := by
  constructor
  · intro e
    refine ⟨?_, ?_, ?_⟩
    · intro h1 h2
      simp [PayPalError.Error, string_length_eq_zero, h1, h2]
    · intro h ha
      rcases h with h | h <;>
        simp [PayPalError.Error, string_length_eq_zero, h, ha]
    · intro h ha
      rcases h with h | h <;>
        simp [PayPalError.Error, string_length_eq_zero, h, ha]
  · decide

/-- Witness for C2: an error with no code and no short message but
acknowledgement `Failure` renders as `Failure`. -/
theorem payPalError_message_rendering_witness :
    PayPalError.Error { Ack := "Failure" } = "Failure" :=
  (payPalError_message_rendering.1 { Ack := "Failure" }).2.1 (Or.inl rfl) (by decide)

/-! ## C5: `CheckoutUrl` requires a token -/

/-- C5.  Without a `TOKEN` entry the unchecked index in `CheckoutUrl` fails
(modelled as `none`), so a present token is a precondition for a value. -/
theorem checkoutUrl_requires_token (r : PayPalResponse) :
    (UrlValues.getAll r.Values "TOKEN" = [] → PayPalResponse.CheckoutUrl r = none)
    ∧ (∀ u, PayPalResponse.CheckoutUrl r = some u →
        UrlValues.getAll r.Values "TOKEN" ≠ []) := by
  constructor
  · intro h
    simp [PayPalResponse.CheckoutUrl, h]
  · intro u hu h
    simp [PayPalResponse.CheckoutUrl, h] at hu

/-- Witness for C5: the failure branch is reachable on a response with no
token entry. -/
theorem checkoutUrl_requires_token_witness :
    PayPalResponse.CheckoutUrl { Values := [("ACK", ["Success"])] } = none :=
  (checkoutUrl_requires_token { Values := [("ACK", ["Success"])] }).1 rfl

/-! ## C6: parse failures still return a response -/

/-- C6.  When the body fails to parse, the parse error is surfaced as the
call's error and a (mostly unpopulated) response is still returned, not a
nil one. -/
theorem parse_failure_still_returns_response (sb : Bool) (body : String)
    (pm : UrlValues) (e : ParseError) (h : parseQuery body = (pm, some e)) :
    PerformRequestDecode sb body
      = (some { usedSandbox := sb }, some (GoError.parse e)) := by
  simp [PerformRequestDecode, h]

/-- Witness for C6: `a=%zz` has an invalid escape, and the decode returns a
non-nil response together with the escape error. -/
theorem parse_failure_still_returns_response_witness :
    PerformRequestDecode true "a=%zz"
      = (some { usedSandbox := true }, some (GoError.parse (ParseError.escapeError "%zz"))) :=
  parse_failure_still_returns_response true "a=%zz" [] (ParseError.escapeError "%zz") (by decide)

/-! ## C7: `PerformRequest` appends exactly the credential fields -/

/-- C7.  `PerformRequest` appends exactly `USER`, `PWD`, `SIGNATURE` and
`VERSION` (the last with the constant value `84`) to the parameter set and
leaves every caller-supplied pair in place. -/
theorem performRequest_appends_credentials (c : PayPalClient) (values : UrlValues)
    (k : String) :
    UrlValues.getAll (PerformRequestValues c values) k
      = UrlValues.getAll values k ++
        (if k = "USER" then [c.username]
         else if k = "PWD" then [c.password]
         else if k = "SIGNATURE" then [c.signature]
         else if k = "VERSION" then ["84"] else []) := by
  simp only [PerformRequestValues, getAll_add, NVP_VERSION]
  by_cases h1 : k = "USER" <;> by_cases h2 : k = "PWD" <;>
    by_cases h3 : k = "SIGNATURE" <;> by_cases h4 : k = "VERSION" <;>
    simp_all

/-! ## C8: the digital-goods amount sum -/

/-- The accumulation loop, peeled from an arbitrary start value. -/
theorem sumGoods_foldl (gs : List PayPalDigitalGood) (a : Rat) :
    gs.foldl (fun sum dg => sum + dg.Amount * (dg.Quantity : Rat)) a
      = a + (gs.map (fun dg => dg.Amount * (dg.Quantity : Rat))).sum := by
  induction gs generalizing a with
  | nil => simp
  | cons g gs ih =>
    rw [List.foldl_cons, ih, List.map_cons, List.sum_cons]
    ring

/-- C8.  `SumPayPalDigitalGoodAmounts` is the sum over the items of
amount times quantity, with no truncation between terms, and the empty
sequence yields `0`. -/
theorem sumPayPalDigitalGoodAmounts_correct :
    (∀ goods : List PayPalDigitalGood,
      SumPayPalDigitalGoodAmounts goods
        = (goods.map (fun dg => dg.Amount * (dg.Quantity : Rat))).sum)
    ∧ SumPayPalDigitalGoodAmounts [] = 0 := by
  constructor
  · intro goods
    rw [SumPayPalDigitalGoodAmounts, sumGoods_foldl, zero_add]
  · rfl

/-! ## C9: `DoExpressCheckoutSale` is `DoExpressCheckoutPayment` at `Sale` -/

/-- C9.  `DoExpressCheckoutSale` builds and submits exactly what
`DoExpressCheckoutPayment` builds and submits with payment type `Sale`, and
that parameter set carries `PAYMENTREQUEST_0_PAYMENTACTION=Sale`. -/
theorem doExpressCheckoutSale_is_salePayment :
    (∀ (c : PayPalClient) (token payerId currencyCode : String) (amt : Rat),
      DoExpressCheckoutSale c token payerId currencyCode amt
        = DoExpressCheckoutPayment c token payerId "Sale" currencyCode amt)
    ∧ (∀ (token payerId currencyCode : String) (amt : Rat),
      UrlValues.get (DoExpressCheckoutPaymentValues token payerId "Sale" currencyCode amt)
        "PAYMENTREQUEST_0_PAYMENTACTION" = "Sale") := by
  exact ⟨fun _ _ _ _ _ => rfl, fun _ _ _ _ => rfl⟩

/-! ## C10: the build field reads the literal key `2975009` -/

/-- C10.  The `Build` field is populated from the literal key `2975009`, not
from `BUILD`: a body with `BUILD=55698494` and no `2975009` key yields an
empty `Build`. -/
theorem build_field_uses_key_2975009 :
    (∀ (sb : Bool) (body : String) (rv : UrlValues), parseQuery body = (rv, none) →
      ∃ resp, (PerformRequestDecode sb body).1 = some resp
        ∧ resp.Build = UrlValues.get rv "2975009")
    ∧ (∃ resp, (PerformRequestDecode true "BUILD=55698494&ACK=Success").1 = some resp
        ∧ UrlValues.getAll resp.Values "BUILD" = ["55698494"]
        ∧ UrlValues.containsKey resp.Values "2975009" = false
        ∧ resp.Build = "") := by
  constructor
  · intro sb body rv h
    rw [performRequestDecode_ok sb body rv h]
    exact ⟨(processParsed sb rv).1, rfl, by rw [processParsed_fst]⟩
  · exact ⟨_, rfl, by decide, by decide, by decide⟩

/-- Witness for C10 at a concrete parsed body. -/
theorem build_field_uses_key_2975009_witness :
    ∃ resp, (PerformRequestDecode false "BUILD=1").1 = some resp
      ∧ resp.Build = UrlValues.get [("BUILD", ["1"])] "2975009" :=
  build_field_uses_key_2975009.1 false "BUILD=1" [("BUILD", ["1"])] (by decide)

/-! ## C4: the checkout redirect URL -/

/-- C4 (amended).  With a token present, `CheckoutUrl` is the environment's
checkout host followed by `?cmd=_express-checkout&token=` and the
query-escaped token. -/
theorem checkoutUrl_format (r : PayPalResponse) (t : String) (ts : List String)
    (h : UrlValues.getAll r.Values "TOKEN" = t :: ts) :
    PayPalResponse.CheckoutUrl r
      = some ((if r.usedSandbox then CHECKOUT_SANDBOX_URL else CHECKOUT_PRODUCTION_URL)
          ++ "?cmd=_express-checkout&token=" ++ queryEscape t) := by
  unfold PayPalResponse.CheckoutUrl
  rw [h]
  cases hs : r.usedSandbox <;> rfl

/-- Witness for C4: the sandbox response with `TOKEN=EC-1` from the spec. -/
theorem checkoutUrl_format_witness :
    PayPalResponse.CheckoutUrl { Values := [("TOKEN", ["EC-1"])], usedSandbox := true }
      = some "https://www.sandbox.paypal.com/cgi-bin/webscr?cmd=_express-checkout&token=EC-1" := by
  rw [checkoutUrl_format { Values := [("TOKEN", ["EC-1"])], usedSandbox := true } "EC-1" [] rfl]
  rfl

/-- C4, counterexample to the verbatim-token reading: a token containing a
space is written into the URL query-escaped (`a+b`), so the result is not the
host followed by the raw token. -/
theorem checkoutUrl_token_escaped_counterexample :
    UrlValues.getAll
        (PayPalResponse.Values { Values := [("TOKEN", ["a b"])], usedSandbox := true }) "TOKEN"
      = ["a b"]
    ∧ PayPalResponse.CheckoutUrl { Values := [("TOKEN", ["a b"])], usedSandbox := true }
        ≠ some (CHECKOUT_SANDBOX_URL ++ "?cmd=_express-checkout&token=" ++ "a b")
    ∧ PayPalResponse.CheckoutUrl { Values := [("TOKEN", ["a b"])], usedSandbox := true }
        = some (CHECKOUT_SANDBOX_URL ++ "?cmd=_express-checkout&token=a+b") := by
  refine ⟨rfl, ?_, rfl⟩
  decide

/-! ## Injectivity of the decimal rendering used for item indexes -/

/-- Big-endian decimal digit characters of a natural number. -/
def decDigits (n : Nat) : List Char :=
  if _h : n < 10 then [Nat.digitChar n]
  else decDigits (n / 10) ++ [Nat.digitChar (n % 10)]
decreasing_by
  exact Nat.div_lt_self (by omega) (by omega)

/-- `Nat.toDigitsCore` with enough fuel produces exactly the digits. -/
theorem toDigitsCore_eq_decDigits :
    ∀ (fuel n : Nat) (ds : List Char), n < fuel →
      Nat.toDigitsCore 10 fuel n ds = decDigits n ++ ds := by
  intro fuel
  induction fuel with
  | zero => intro n ds h; exact absurd h (Nat.not_lt_zero n)
  | succ f ih =>
    intro n ds h
    by_cases h10 : n < 10
    · have hdiv : n / 10 = 0 := Nat.div_eq_of_lt h10
      have hmod : n % 10 = n := Nat.mod_eq_of_lt h10
      rw [decDigits]
      simp [Nat.toDigitsCore, hdiv, hmod, h10]
    · have hne : ¬ n / 10 = 0 := by
        have : 10 ≤ n := Nat.le_of_not_lt h10
        have : 1 ≤ n / 10 := (Nat.one_le_div_iff (by omega)).mpr this
        omega
      have hlt : n / 10 < f :=
        lt_of_lt_of_le (Nat.div_lt_self (by omega) (by omega)) (Nat.lt_succ_iff.mp h)
      rw [show Nat.toDigitsCore 10 (f + 1) n ds
            = Nat.toDigitsCore 10 f (n / 10) (Nat.digitChar (n % 10) :: ds) from by
          simp [Nat.toDigitsCore, hne]]
      rw [ih (n / 10) _ hlt]
      conv_rhs => rw [decDigits]
      rw [dif_neg h10]
      simp [List.append_assoc]

/-- `Nat.repr` is the digit list rendered as a string. -/
theorem natRepr_eq_decDigits (n : Nat) : Nat.repr n = (decDigits n).asString := by
  unfold Nat.repr Nat.toDigits
  rw [toDigitsCore_eq_decDigits (n + 1) n [] (Nat.lt_succ_self n)]
  simp

/-- Decimal value of a digit character. -/
def digitCharVal (c : Char) : Nat := c.toNat - 48

/-- `digitCharVal` decodes `Nat.digitChar` on decimal digits. -/
theorem digitCharVal_digitChar : ∀ d : Nat, d < 10 → digitCharVal (Nat.digitChar d) = d := by
  decide

/-- Folding the digit values over `decDigits` recovers the number. -/
theorem decDigits_val (n : Nat) :
    ∀ a : Nat, (decDigits n).foldl (fun acc c => 10 * acc + digitCharVal c) a
      = a * 10 ^ (decDigits n).length + n := by
  induction n using Nat.strong_induction_on with
  | _ n ih =>
    intro a
    by_cases h10 : n < 10
    · rw [decDigits, dif_pos h10]
      simp [digitCharVal_digitChar n h10]
      ring
    · rw [decDigits, dif_neg h10]
      rw [List.foldl_append, List.length_append]
      rw [ih (n / 10) (Nat.div_lt_self (by omega) (by omega)) a]
      simp only [List.foldl_cons, List.foldl_nil, List.length_cons, List.length_nil]
      rw [digitCharVal_digitChar (n % 10) (Nat.mod_lt n (by omega))]
      have hdm : 10 * (n / 10) + n % 10 = n := Nat.div_add_mod n 10
      rw [zero_add, pow_succ, ← mul_assoc]
      generalize a * 10 ^ (decDigits (n / 10)).length = Q
      omega

/-- The decimal rendering `Nat.repr` is injective. -/
theorem natRepr_injective (m n : Nat) (h : Nat.repr m = Nat.repr n) : m = n := by
  rw [natRepr_eq_decDigits, natRepr_eq_decDigits] at h
  have hd : decDigits m = decDigits n := congrArg String.data h
  have hm := decDigits_val m 0
  have hn := decDigits_val n 0
  rw [hd] at hm
  have h1 := hm.symm.trans hn
  simpa using h1

/-! ## Inequalities between protocol field names -/

/-- Appending to a common left part is injective. -/
theorem str_append_left_cancel {p x y : String} (h : p ++ x = p ++ y) : x = y := by
  apply String.ext
  have hd := congrArg String.data h
  rw [String.data_append, String.data_append] at hd
  exact List.append_cancel_left hd

/-- Strings that extend, after a common part, two parts with different first
characters are different, whatever is appended after them. -/
theorem str_append_ne_of_head {p s t x y : String} {cs ct : Char} {ls lt : List Char}
    (hs : s.data = cs :: ls) (ht : t.data = ct :: lt) (hne : cs ≠ ct) :
    p ++ s ++ x ≠ p ++ t ++ y := by
  intro h
  have hd := congrArg String.data h
  simp only [String.data_append, List.append_assoc] at hd
  have hc := List.append_cancel_left hd
  rw [hs, ht, List.cons_append, List.cons_append] at hc
  injection hc with h1 _
  exact hne h1

/-- A string with a first character different from that of `t` stays
different from `t` whatever is appended to it. -/
theorem str_append_ne_lit {a x t : String} {ca ct : Char} {la lt : List Char}
    (ha : a.data = ca :: la) (ht : t.data = ct :: lt) (hne : ca ≠ ct) :
    a ++ x ≠ t := by
  intro h
  have hd := congrArg String.data h
  rw [String.data_append, ha, ht, List.cons_append] at hd
  injection hd with h1 _
  exact hne h1

/-- Indexed keys built from the same name differ iff the indexes differ. -/
theorem key_same_ne (pfx : String) (i j : Nat) (hij : i ≠ j) :
    (pfx ++ Nat.repr i) ≠ (pfx ++ Nat.repr j) :=
  fun h => hij (natRepr_injective i j (str_append_left_cancel h))

/-- The `NAME` and `AMT` item keys never collide. -/
theorem key_name_ne_amt (i j : Nat) :
    ("L_PAYMENTREQUEST_0_NAME" ++ Nat.repr i) ≠ ("L_PAYMENTREQUEST_0_AMT" ++ Nat.repr j) := by
  rw [show ("L_PAYMENTREQUEST_0_NAME" : String) = "L_PAYMENTREQUEST_0_" ++ "NAME" from rfl,
    show ("L_PAYMENTREQUEST_0_AMT" : String) = "L_PAYMENTREQUEST_0_" ++ "AMT" from rfl]
  exact str_append_ne_of_head rfl rfl (by decide)

/-- The `NAME` and `QTY` item keys never collide. -/
theorem key_name_ne_qty (i j : Nat) :
    ("L_PAYMENTREQUEST_0_NAME" ++ Nat.repr i) ≠ ("L_PAYMENTREQUEST_0_QTY" ++ Nat.repr j) := by
  rw [show ("L_PAYMENTREQUEST_0_NAME" : String) = "L_PAYMENTREQUEST_0_" ++ "NAME" from rfl,
    show ("L_PAYMENTREQUEST_0_QTY" : String) = "L_PAYMENTREQUEST_0_" ++ "QTY" from rfl]
  exact str_append_ne_of_head rfl rfl (by decide)

/-- The `NAME` and `ITEMCATEGORY` item keys never collide. -/
theorem key_name_ne_cat (i j : Nat) :
    ("L_PAYMENTREQUEST_0_NAME" ++ Nat.repr i)
      ≠ ("L_PAYMENTREQUEST_0_ITEMCATEGORY" ++ Nat.repr j) := by
  rw [show ("L_PAYMENTREQUEST_0_NAME" : String) = "L_PAYMENTREQUEST_0_" ++ "NAME" from rfl,
    show ("L_PAYMENTREQUEST_0_ITEMCATEGORY" : String)
      = "L_PAYMENTREQUEST_0_" ++ "ITEMCATEGORY" from rfl]
  exact str_append_ne_of_head rfl rfl (by decide)

/-- The `AMT` and `QTY` item keys never collide. -/
theorem key_amt_ne_qty (i j : Nat) :
    ("L_PAYMENTREQUEST_0_AMT" ++ Nat.repr i) ≠ ("L_PAYMENTREQUEST_0_QTY" ++ Nat.repr j) := by
  rw [show ("L_PAYMENTREQUEST_0_AMT" : String) = "L_PAYMENTREQUEST_0_" ++ "AMT" from rfl,
    show ("L_PAYMENTREQUEST_0_QTY" : String) = "L_PAYMENTREQUEST_0_" ++ "QTY" from rfl]
  exact str_append_ne_of_head rfl rfl (by decide)

/-- The `AMT` and `ITEMCATEGORY` item keys never collide. -/
theorem key_amt_ne_cat (i j : Nat) :
    ("L_PAYMENTREQUEST_0_AMT" ++ Nat.repr i)
      ≠ ("L_PAYMENTREQUEST_0_ITEMCATEGORY" ++ Nat.repr j) := by
  rw [show ("L_PAYMENTREQUEST_0_AMT" : String) = "L_PAYMENTREQUEST_0_" ++ "AMT" from rfl,
    show ("L_PAYMENTREQUEST_0_ITEMCATEGORY" : String)
      = "L_PAYMENTREQUEST_0_" ++ "ITEMCATEGORY" from rfl]
  exact str_append_ne_of_head rfl rfl (by decide)

/-- The `QTY` and `ITEMCATEGORY` item keys never collide. -/
theorem key_qty_ne_cat (i j : Nat) :
    ("L_PAYMENTREQUEST_0_QTY" ++ Nat.repr i)
      ≠ ("L_PAYMENTREQUEST_0_ITEMCATEGORY" ++ Nat.repr j) := by
  rw [show ("L_PAYMENTREQUEST_0_QTY" : String) = "L_PAYMENTREQUEST_0_" ++ "QTY" from rfl,
    show ("L_PAYMENTREQUEST_0_ITEMCATEGORY" : String)
      = "L_PAYMENTREQUEST_0_" ++ "ITEMCATEGORY" from rfl]
  exact str_append_ne_of_head rfl rfl (by decide)

/-- Two strings with different first characters differ. -/
theorem str_ne_of_head {s t : String} {cs ct : Char} {ls lt : List Char}
    (hs : s.data = cs :: ls) (ht : t.data = ct :: lt) (hne : cs ≠ ct) : s ≠ t := by
  intro h
  rw [h] at hs
  rw [ht] at hs
  injection hs with h1 _
  exact hne h1.symm

/-! ## The shape of the item loop in `SetExpressCheckoutDigitalGoods` -/

/-- The four indexed entries the loop writes for item `i` (statement side,
matching `addGood`). -/
def goodEntries (i : Nat) (g : PayPalDigitalGood) : UrlValues :=
  [("L_PAYMENTREQUEST_0_NAME" ++ Nat.repr i, [g.Name]),
   ("L_PAYMENTREQUEST_0_AMT" ++ Nat.repr i, [formatFloat2 g.Amount]),
   ("L_PAYMENTREQUEST_0_QTY" ++ Nat.repr i, [Int.repr g.Quantity]),
   ("L_PAYMENTREQUEST_0_ITEMCATEGORY" ++ Nat.repr i, ["Digital"])]

/-- The four key names of item `i`. -/
def goodKeys (i : Nat) : List String :=
  ["L_PAYMENTREQUEST_0_NAME" ++ Nat.repr i, "L_PAYMENTREQUEST_0_AMT" ++ Nat.repr i,
   "L_PAYMENTREQUEST_0_QTY" ++ Nat.repr i, "L_PAYMENTREQUEST_0_ITEMCATEGORY" ++ Nat.repr i]

/-- The entries of all items, indexes starting at `i`. -/
def itemsFrom : Nat → List PayPalDigitalGood → UrlValues
  | _, [] => []
  | i, g :: gs => goodEntries i g ++ itemsFrom (i + 1) gs

/-- `containsKey` on a single entry. -/
theorem containsKey_single (k1 : String) (v1 : List String) (k : String) :
    UrlValues.containsKey [(k1, v1)] k = (k1 == k) := by
  simp [UrlValues.containsKey]

/-- The base parameter set, written out. -/
theorem baseValues_eq (amt : Rat) (cur ret can inv : String) :
    setExpressCheckoutBaseValues amt cur ret can inv =
      [("METHOD", ["SetExpressCheckout"]),
       ("PAYMENTREQUEST_0_AMT", [formatFloat2 amt]),
       ("PAYMENTREQUEST_0_PAYMENTACTION", ["Sale"]),
       ("PAYMENTREQUEST_0_CURRENCYCODE", [cur]),
       ("PAYMENTREQUEST_0_INVNUM", [inv]),
       ("RETURNURL", [ret]),
       ("CANCELURL", [can]),
       ("REQCONFIRMSHIPPING", ["0"]),
       ("NOSHIPPING", ["1"]),
       ("SOLUTIONTYPE", ["Sole"])] := rfl

/-- No item key occurs among the base keys: every item key starts with `L`
and no base key does. -/
theorem containsKey_base_goodKey (amt : Rat) (cur ret can inv : String)
    (j : Nat) (k : String) (hk : k ∈ goodKeys j) :
    UrlValues.containsKey (setExpressCheckoutBaseValues amt cur ret can inv) k = false := by
  have hL : ∃ l, k.data = 'L' :: l := by
    simp only [goodKeys, List.mem_cons, List.not_mem_nil, or_false] at hk
    rcases hk with rfl | rfl | rfl | rfl <;> exact ⟨_, rfl⟩
  rcases hL with ⟨l, hl⟩
  rw [baseValues_eq]
  simp only [UrlValues.containsKey, Bool.or_eq_false_iff, beq_eq_false_iff_ne]
  refine ⟨?_, ?_, ?_, ?_, ?_, ?_, ?_, ?_, ?_, ?_, trivial⟩ <;>
    exact str_ne_of_head rfl hl (by decide)

/-- Item `i`'s entries never contain a key of a different item `j`. -/
theorem containsKey_goodEntries (i j : Nat) (g : PayPalDigitalGood) (hij : i ≠ j)
    (k : String) (hk : k ∈ goodKeys j) :
    UrlValues.containsKey (goodEntries i g) k = false := by
  simp only [goodKeys, List.mem_cons, List.not_mem_nil, or_false] at hk
  rcases hk with rfl | rfl | rfl | rfl <;>
    simp only [goodEntries, UrlValues.containsKey, Bool.or_eq_false_iff,
      beq_eq_false_iff_ne]
  · exact ⟨key_same_ne _ i j hij, (key_name_ne_amt j i).symm,
      (key_name_ne_qty j i).symm, (key_name_ne_cat j i).symm, trivial⟩
  · exact ⟨key_name_ne_amt i j, key_same_ne _ i j hij,
      (key_amt_ne_qty j i).symm, (key_amt_ne_cat j i).symm, trivial⟩
  · exact ⟨key_name_ne_qty i j, key_amt_ne_qty i j,
      key_same_ne _ i j hij, (key_qty_ne_cat j i).symm, trivial⟩
  · exact ⟨key_name_ne_cat i j, key_amt_ne_cat i j,
      key_qty_ne_cat i j, key_same_ne _ i j hij, trivial⟩

/-- One loop iteration appends exactly the four entries of its item, provided
its keys are fresh. -/
theorem addGood_eq (i : Nat) (g : PayPalDigitalGood) (vs : UrlValues)
    (h : ∀ k ∈ goodKeys i, UrlValues.containsKey vs k = false) :
    addGood i g vs = vs ++ goodEntries i g := by
  have hN := h ("L_PAYMENTREQUEST_0_NAME" ++ Nat.repr i) (by simp [goodKeys])
  have hA := h ("L_PAYMENTREQUEST_0_AMT" ++ Nat.repr i) (by simp [goodKeys])
  have hQ := h ("L_PAYMENTREQUEST_0_QTY" ++ Nat.repr i) (by simp [goodKeys])
  have hC := h ("L_PAYMENTREQUEST_0_ITEMCATEGORY" ++ Nat.repr i) (by simp [goodKeys])
  have cA : UrlValues.containsKey
      (vs ++ [("L_PAYMENTREQUEST_0_NAME" ++ Nat.repr i, [g.Name])])
      ("L_PAYMENTREQUEST_0_AMT" ++ Nat.repr i) = false := by
    rw [containsKey_append, Bool.or_eq_false_iff]
    exact ⟨hA, by rw [containsKey_single]
                  exact beq_eq_false_iff_ne.mpr (key_name_ne_amt i i)⟩
  have cQ : UrlValues.containsKey
      ((vs ++ [("L_PAYMENTREQUEST_0_NAME" ++ Nat.repr i, [g.Name])])
        ++ [("L_PAYMENTREQUEST_0_AMT" ++ Nat.repr i, [formatFloat2 g.Amount])])
      ("L_PAYMENTREQUEST_0_QTY" ++ Nat.repr i) = false := by
    rw [containsKey_append, containsKey_append, Bool.or_eq_false_iff, Bool.or_eq_false_iff]
    refine ⟨⟨hQ, ?_⟩, ?_⟩
    · rw [containsKey_single]
      exact beq_eq_false_iff_ne.mpr (key_name_ne_qty i i)
    · rw [containsKey_single]
      exact beq_eq_false_iff_ne.mpr (key_amt_ne_qty i i)
  have cC : UrlValues.containsKey
      (((vs ++ [("L_PAYMENTREQUEST_0_NAME" ++ Nat.repr i, [g.Name])])
        ++ [("L_PAYMENTREQUEST_0_AMT" ++ Nat.repr i, [formatFloat2 g.Amount])])
        ++ [("L_PAYMENTREQUEST_0_QTY" ++ Nat.repr i, [Int.repr g.Quantity])])
      ("L_PAYMENTREQUEST_0_ITEMCATEGORY" ++ Nat.repr i) = false := by
    rw [containsKey_append, containsKey_append, containsKey_append,
      Bool.or_eq_false_iff, Bool.or_eq_false_iff, Bool.or_eq_false_iff]
    refine ⟨⟨⟨hC, ?_⟩, ?_⟩, ?_⟩
    · rw [containsKey_single]
      exact beq_eq_false_iff_ne.mpr (key_name_ne_cat i i)
    · rw [containsKey_single]
      exact beq_eq_false_iff_ne.mpr (key_amt_ne_cat i i)
    · rw [containsKey_single]
      exact beq_eq_false_iff_ne.mpr (key_qty_ne_cat i i)
  rw [addGood, add_eq_append _ _ _ hN, add_eq_append _ _ _ cA,
    add_eq_append _ _ _ cQ, add_eq_append _ _ _ cC]
  simp [goodEntries, List.append_assoc]

/-- The item loop appends exactly the item entries, provided every key with
index at least the start index is fresh. -/
theorem addGoods_eq (gs : List PayPalDigitalGood) :
    ∀ (i : Nat) (vs : UrlValues),
      (∀ j, i ≤ j → ∀ k ∈ goodKeys j, UrlValues.containsKey vs k = false) →
      addGoods i gs vs = vs ++ itemsFrom i gs := by
  induction gs with
  | nil =>
    intro i vs _
    simp [addGoods, itemsFrom]
  | cons g gs ih =>
    intro i vs h
    have hfresh : ∀ j, i + 1 ≤ j → ∀ k ∈ goodKeys j,
        UrlValues.containsKey (vs ++ goodEntries i g) k = false := by
      intro j hj k hk
      rw [containsKey_append, Bool.or_eq_false_iff]
      exact ⟨h j (by omega) k hk, containsKey_goodEntries i j g (by omega) k hk⟩
    rw [addGoods, addGood_eq i g vs (h i le_rfl), ih (i + 1) _ hfresh, itemsFrom]
    simp [List.append_assoc]

/-! ## The shape of `fmt.Sprintf("%.2f", _)` -/

/-- A one-digit number renders as its single digit character. -/
theorem natRepr_single (d : Nat) (h : d < 10) :
    Nat.repr d = String.mk [Nat.digitChar d] := by
  rw [natRepr_eq_decDigits, decDigits, dif_pos h]
  rfl

/-- Decimal digit characters satisfy `Char.isDigit`. -/
theorem digitChar_isDigit : ∀ d : Nat, d < 10 → (Nat.digitChar d).isDigit = true := by
  decide

/-- `1` encodes as `1.00`. -/
theorem formatFloat2_one : formatFloat2 1 = "1.00" := by
  have h100 : (1 : Rat) * 100 = 100 := by norm_num
  have hr : roundHalfEven ((1 : Rat) * 100) = 100 := by
    rw [h100]
    simp only [roundHalfEven]
    have hfl : Int.floor (100 : Rat) = 100 := by norm_num
    rw [hfl]
    norm_num
  have hneg : ¬ ((1 : Rat) < 0) := by norm_num
  simp only [formatFloat2, hr, hneg, if_false]
  decide

/-- Every `%.2f` rendering ends in a dot followed by exactly two decimal
digit characters. -/
theorem formatFloat2_two_decimals (q : Rat) :
    ∃ pre d1 d2, formatFloat2 q = pre ++ "." ++ String.mk [d1, d2]
      ∧ d1.isDigit ∧ d2.isDigit := by
  refine ⟨(if q < 0 then "-" else "") ++ Nat.repr ((roundHalfEven (q * 100)).natAbs / 100),
    Nat.digitChar ((roundHalfEven (q * 100)).natAbs / 10 % 10),
    Nat.digitChar ((roundHalfEven (q * 100)).natAbs % 10), ?_, ?_, ?_⟩
  · rw [formatFloat2]
    rw [natRepr_single ((roundHalfEven (q * 100)).natAbs / 10 % 10) (Nat.mod_lt _ (by omega))]
    rw [natRepr_single ((roundHalfEven (q * 100)).natAbs % 10) (Nat.mod_lt _ (by omega))]
    apply String.ext
    simp [String.data_append]
  · exact digitChar_isDigit _ (Nat.mod_lt _ (by omega))
  · exact digitChar_isDigit _ (Nat.mod_lt _ (by omega))

/-! ## C3: the digital-goods parameter set -/

/-- C3.  `SetExpressCheckoutDigitalGoods` builds the fixed base fields
followed by, for each item `i`, exactly the four fields
`L_PAYMENTREQUEST_0_NAMEi`, `L_PAYMENTREQUEST_0_AMTi`,
`L_PAYMENTREQUEST_0_QTYi` and `L_PAYMENTREQUEST_0_ITEMCATEGORYi` (the last
fixed to `Digital`); every amount is formatted with exactly two decimal
digits, and `1` encodes as `1.00`. -/
theorem setExpressCheckoutDigitalGoods_item_fields :
    (∀ (paymentAmount : Rat) (currencyCode returnURL cancelURL invnum : String)
        (goods : List PayPalDigitalGood),
      SetExpressCheckoutDigitalGoodsValues paymentAmount currencyCode returnURL
          cancelURL invnum goods
        = setExpressCheckoutBaseValues paymentAmount currencyCode returnURL
            cancelURL invnum ++ itemsFrom 0 goods)
    ∧ (∀ q : Rat, ∃ pre d1 d2, formatFloat2 q = pre ++ "." ++ String.mk [d1, d2]
        ∧ d1.isDigit ∧ d2.isDigit)
    ∧ formatFloat2 1 = "1.00" := by
  refine ⟨?_, formatFloat2_two_decimals, formatFloat2_one⟩
  intro paymentAmount currencyCode returnURL cancelURL invnum goods
  rw [SetExpressCheckoutDigitalGoodsValues]
  exact addGoods_eq goods 0 _
    (fun j _ k hk =>
      containsKey_base_goodKey paymentAmount currencyCode returnURL cancelURL invnum j k hk)

end PaypalNVP
